import Mathlib

/-!
Verification of the Smart-inventory container dashboard (src/dashboard.py).

The dashboard polls a sensor distance value, converts it to a fill
percentage, appends it to a bounded in-memory history log, and renders
metric/chart/table.  We embed the data model and the per-cycle logic here
and prove the specified properties about them.
-/

namespace Dashboard

/-- One row of the history DataFrame: a timestamp and the stored level
(the `Distance` column of `st.session_state.df` actually stores the
computed container level, see dashboard.py lines 125-128). -/
structure HistoryEntry where
  time : Nat
  level : ℚ
  deriving Repr, DecidableEq

/-- The per-user session state (dashboard.py lines 10-17). -/
structure Session where
  logged_in : Bool
  df : List HistoryEntry
  last_update : Option Nat
  auto_refresh : Bool
  deriving Repr, DecidableEq

/-- Initial session state: not logged in, empty DataFrame, no update yet,
auto refresh on (dashboard.py lines 10-17). -/
def initSession : Session :=
  { logged_in := false, df := [], last_update := none, auto_refresh := true }

/-- Hard-coded username (dashboard.py line 20). -/
def VALID_USERNAME : String := "admin"

/-- Hard-coded password (dashboard.py line 21). -/
def VALID_PASSWORD : String := "admin123"

/-- The login button handler (dashboard.py lines 30-35): on exact match of
both fields set `logged_in := true`, otherwise leave the session unchanged
and surface an error message. -/
def loginAttempt (s : Session) (username password : String) :
    Session × Option String :=
  if username = VALID_USERNAME ∧ password = VALID_PASSWORD then
    ({ s with logged_in := true }, none)
  else
    (s, some "Invalid username or password")

/-- The logout button handler (dashboard.py lines 60-62). -/
def logout (s : Session) : Session :=
  { s with logged_in := false }

/-- The clear-historical-data button handler (dashboard.py lines 86-88):
reset the DataFrame to an empty one. -/
def clearData (s : Session) : Session :=
  { s with df := [] }

/-- `pandas.DataFrame.tail(100)`: keep only the last `min(length, 100)`
rows (dashboard.py line 130). -/
def tail100 (l : List HistoryEntry) : List HistoryEntry :=
  l.drop (l.length - 100)

/-- Appending a new row and truncating to the most recent 100 records
(dashboard.py lines 129-130). -/
def appendLog (l : List HistoryEntry) (e : HistoryEntry) : List HistoryEntry :=
  tail100 (l ++ [e])

/-- The append, lifted to the session: only the `df` field is touched
(dashboard.py lines 129-130). -/
def appendEntry (s : Session) (e : HistoryEntry) : Session :=
  { s with df := appendLog s.df e }

/-- The level transform (dashboard.py line 121):
`max(0, min(100, (120 - distance) * (100 / 80)))`. -/
def container_level (distance : ℚ) : ℚ :=
  max 0 (min 100 ((120 - distance) * (100 / 80)))

/-- The row of the DataFrame whose position is second from the end,
`df['Distance'].iloc[-2]` in dashboard.py line 135. -/
def penult (l : List HistoryEntry) : Option HistoryEntry :=
  l.dropLast.getLast?

/-- A raw value fetched from the database, abstracted by whether Python's
`float(data)` (dashboard.py line 120) can interpret it as a number. -/
inductive RawData where
  | num (q : ℚ)
  | nonNum (repr : String)
  deriving Repr, DecidableEq

/-- `float(data)` (dashboard.py line 120): succeeds exactly on values
interpretable as numbers, otherwise raises TypeError/ValueError. -/
def parseFloat : RawData → Option ℚ
  | RawData.num q => some q
  | RawData.nonNum _ => none

/-- Outcome of `ref.get()` (dashboard.py lines 114-115): either a value
(possibly `None`), or an exception escaping the fetch. -/
inductive FetchResult where
  | ok (data : Option RawData)
  | err (msg : String)
  deriving Repr, DecidableEq

/-- Everything one dashboard cycle produces besides the new session:
the displayed level and delta, any error message, and whether the
no-data warning was shown. -/
structure CycleOutcome where
  session : Session
  level : Option ℚ
  delta : Option ℚ
  error : Option String
  warning : Bool
  deriving Repr, DecidableEq

/-- One data-update cycle of the dashboard (dashboard.py lines 112-177):
fetch, parse, transform, append, compute delta, set the last-update
timestamp; on a fetch exception or a parse failure report an error and
leave the session untouched; on an absent value show a warning only. -/
def runCycle (s : Session) (fetch : FetchResult) (now : Nat) : CycleOutcome :=
  match fetch with
  | FetchResult.err msg =>
      { session := s, level := none, delta := none,
        error := some ("Error fetching data: " ++ msg), warning := false }
  | FetchResult.ok none =>
      { session := s, level := none, delta := none,
        error := none, warning := true }
  | FetchResult.ok (some raw) =>
      match parseFloat raw with
      | none =>
          { session := s, level := none, delta := none,
            error := some "Error processing data", warning := false }
      | some distance =>
          let lvl := container_level distance
          let s1 := appendEntry s { time := now, level := lvl }
          let d : Option ℚ :=
            if 1 < s1.df.length then
              (penult s1.df).map (fun e => lvl - e.level)
            else none
          { session := { s1 with last_update := some now },
            level := some lvl, delta := d, error := none, warning := false }

end Dashboard

namespace Dashboard

/-- Claim C1: for every numeric distance `d` the level transform returns
`clamp(0, 100, (120 - d) * (100 / 80))`; the result is always in `[0, 100]`,
equals `100` at `d = 40`, `0` at `d = 120`, `50` at `d = 80`, and distances
outside `[40, 120]` saturate to `100` / `0` rather than erroring. -/
theorem containerLevel_clamp_spec (d : ℚ) :
    container_level d = max 0 (min 100 ((120 - d) * (100 / 80))) ∧
    0 ≤ container_level d ∧ container_level d ≤ 100 ∧
    container_level 40 = 100 ∧ container_level 120 = 0 ∧
    container_level 80 = 50 ∧
    (d ≤ 40 → container_level d = 100) ∧
    (120 ≤ d → container_level d = 0) := by
  refine ⟨rfl, le_max_left _ _, max_le (by norm_num) (min_le_left _ _),
    by norm_num [container_level], by norm_num [container_level],
    by norm_num [container_level], ?_, ?_⟩
  · intro h
    have h1 : (100 : ℚ) ≤ (120 - d) * (100 / 80) := by nlinarith
    unfold container_level
    rw [min_eq_left h1]
    norm_num
  · intro h
    have h1 : (120 - d) * (100 / 80) ≤ 0 := by nlinarith
    unfold container_level
    rw [min_eq_right (le_trans h1 (by norm_num))]
    exact max_eq_left h1

/-- Witness for C1 at a concrete saturating distance. -/
theorem containerLevel_clamp_spec_witness :
    (30 : ℚ) ≤ 40 ∧ container_level 30 = 100 :=
  ⟨by norm_num, (containerLevel_clamp_spec 30).2.2.2.2.2.2.1 (by norm_num)⟩

/-- Claim C9: the level transform is monotonically non-increasing in the
distance. -/
theorem containerLevel_antitone (d₁ d₂ : ℚ) (h : d₁ ≤ d₂) :
    container_level d₂ ≤ container_level d₁ := by
  unfold container_level
  have h1 : (120 - d₂) * (100 / 80) ≤ (120 - d₁) * (100 / 80) :=
    mul_le_mul_of_nonneg_right (by linarith) (by norm_num)
  exact max_le_max le_rfl (min_le_min le_rfl h1)

/-- Witness for C9 at concrete distances 50 ≤ 60. -/
theorem containerLevel_antitone_witness :
    container_level 60 ≤ container_level 50 :=
  containerLevel_antitone 50 60 (by norm_num)

/-- Claim C8: the clear operation resets the history log to empty
regardless of prior size and contents (and touches nothing else). -/
theorem clearData_resets_log (s : Session) :
    (clearData s).df = [] ∧
    (clearData s).logged_in = s.logged_in ∧
    (clearData s).last_update = s.last_update ∧
    (clearData s).auto_refresh = s.auto_refresh :=
  ⟨rfl, rfl, rfl, rfl⟩

/-- Claim C4: a fetched value that cannot be interpreted as a number makes
the transform signal an error and yield no level; the cycle is abandoned:
the session (history log and last-update timestamp included) is unchanged. -/
theorem malformed_value_abandons_cycle (s : Session) (str : String) (now : Nat) :
    parseFloat (RawData.nonNum str) = none ∧
    (runCycle s (FetchResult.ok (some (RawData.nonNum str))) now).error.isSome = true ∧
    (runCycle s (FetchResult.ok (some (RawData.nonNum str))) now).level = none ∧
    (runCycle s (FetchResult.ok (some (RawData.nonNum str))) now).session = s ∧
    (runCycle s (FetchResult.ok (some (RawData.nonNum str))) now).session.df = s.df ∧
    (runCycle s (FetchResult.ok (some (RawData.nonNum str))) now).session.last_update
      = s.last_update :=
  ⟨rfl, rfl, rfl, rfl, rfl, rfl⟩

/-- Claim C6: a successful fetch returning an absent value skips the cycle
as a distinct non-error condition: a warning but no error message is shown,
no entry is appended, and the session is unchanged. -/
theorem empty_response_skips_cycle (s : Session) (now : Nat) :
    (runCycle s (FetchResult.ok none) now).error = none ∧
    (runCycle s (FetchResult.ok none) now).warning = true ∧
    (runCycle s (FetchResult.ok none) now).level = none ∧
    (runCycle s (FetchResult.ok none) now).session = s ∧
    (runCycle s (FetchResult.ok none) now).session.df = s.df ∧
    (runCycle s (FetchResult.ok none) now).session.last_update = s.last_update :=
  ⟨rfl, rfl, rfl, rfl, rfl, rfl⟩

/-- Claim C7: a transport or other unexpected failure during fetch reports
an error, yields no level, and skips the cycle with the session (history
log and last-update timestamp) unchanged; `runCycle` is total, so the
program does not crash on any fetch outcome. -/
theorem fetch_failure_skips_cycle (s : Session) (msg : String) (now : Nat) :
    (runCycle s (FetchResult.err msg) now).error
      = some ("Error fetching data: " ++ msg) ∧
    (runCycle s (FetchResult.err msg) now).level = none ∧
    (runCycle s (FetchResult.err msg) now).warning = false ∧
    (runCycle s (FetchResult.err msg) now).session = s ∧
    (runCycle s (FetchResult.err msg) now).session.df = s.df ∧
    (runCycle s (FetchResult.err msg) now).session.last_update = s.last_update :=
  ⟨rfl, rfl, rfl, rfl, rfl, rfl⟩

end Dashboard

namespace Dashboard

/-- `tail100` keeps the last `min(length, 100)` rows. -/
theorem tail100_length (l : List HistoryEntry) :
    (tail100 l).length = min l.length 100 := by
  simp only [tail100, List.length_drop]
  omega

/-- Feeding an already-truncated log through `appendLog` is the same as
truncating after the append. -/
theorem appendLog_tail100 (l : List HistoryEntry) (e : HistoryEntry) :
    appendLog (tail100 l) e = tail100 (l ++ [e]) := by
  unfold appendLog tail100
  rcases le_or_lt l.length 100 with h | h
  · rw [Nat.sub_eq_zero_of_le h, List.drop_zero]
  · have hk1 : l.length - (l.length - 100) + 1 - 100 = 1 := by omega
    have hk2 : l.length + 1 - 100 = (l.length - 100) + 1 := by omega
    have hle1 : 1 ≤ (List.drop (l.length - 100) l).length := by
      rw [List.length_drop]; omega
    have hle2 : l.length - 100 + 1 ≤ l.length := by omega
    simp only [List.length_append, List.length_drop, List.length_singleton, hk1, hk2]
    rw [List.drop_append_of_le_length hle1, List.drop_append_of_le_length hle2,
        List.drop_drop]

/-- Folding `appendLog` over any sequence of entries starting from the
empty log yields exactly the last `min(length, 100)` entries. -/
theorem foldl_appendLog_eq_tail100 (es : List HistoryEntry) :
    List.foldl appendLog [] es = tail100 es := by
  induction es using List.reverseRecOn with
  | nil => rfl
  | append_singleton l e ih =>
      rw [List.foldl_append, ih]
      simpa using appendLog_tail100 l e

/-- Claim C2: the history log's length is at most 100 after every append,
and appending 101 consecutive entries to an initially empty log leaves
exactly the last 100 appended entries in insertion order. -/
theorem history_log_capped :
    (∀ (l : List HistoryEntry) (e : HistoryEntry), (appendLog l e).length ≤ 100) ∧
    (∀ es : List HistoryEntry, es.length = 101 →
      List.foldl appendLog [] es = es.drop 1 ∧
      (List.foldl appendLog [] es).length = 100) := by
  constructor
  · intro l e
    have := tail100_length (l ++ [e])
    simp only [appendLog, this]
    omega
  · intro es h
    have h1 : List.foldl appendLog [] es = es.drop 1 := by
      rw [foldl_appendLog_eq_tail100, tail100]
      rw [h]
    exact ⟨h1, by rw [h1, List.length_drop, h]⟩

/-- A concrete sequence of 101 history entries. -/
def ents101 : List HistoryEntry :=
  (List.range 101).map (fun n => { time := n, level := (n : ℚ) })

/-- Witness for C2: the 101-entry sequence `ents101` folds down to its
last 100 entries. -/
theorem history_log_capped_witness :
    List.foldl appendLog [] ents101 = ents101.drop 1 :=
  (history_log_capped.2 ents101 (by simp [ents101])).1

end Dashboard

namespace Dashboard

/-- The newest row after an append is the appended entry. -/
theorem getLast?_appendLog (l : List HistoryEntry) (e : HistoryEntry) :
    (appendLog l e).getLast? = some e := by
  unfold appendLog tail100
  rw [List.drop_append_of_le_length
    (by simp only [List.length_append, List.length_singleton]; omega)]
  exact List.getLast?_concat _

/-- A log with a second-from-last row has at least two rows. -/
theorem penult_some_length {l : List HistoryEntry} {e : HistoryEntry}
    (h : penult l = some e) : 2 ≤ l.length := by
  unfold penult at h
  have h0 : l.dropLast ≠ [] := by
    intro hnil
    rw [hnil] at h
    simp at h
  have h1 : 0 < l.dropLast.length := List.length_pos.mpr h0
  rw [List.length_dropLast] at h1
  omega

/-- Claim C3: after a successful append the displayed delta is absent when
the log has fewer than 2 entries, and otherwise equals the newest entry's
level minus the second-newest entry's level; the stored log is exactly the
appended log of (time, level) rows, so the delta itself is displayed but
not stored. -/
theorem delta_displayed (s : Session) (q : ℚ) (now : Nat) :
    ((runCycle s (FetchResult.ok (some (RawData.num q))) now).session.df.length < 2 →
      (runCycle s (FetchResult.ok (some (RawData.num q))) now).delta = none) ∧
    (∀ e₁ e₂ : HistoryEntry,
      (runCycle s (FetchResult.ok (some (RawData.num q))) now).session.df.getLast?
        = some e₁ →
      penult (runCycle s (FetchResult.ok (some (RawData.num q))) now).session.df
        = some e₂ →
      (runCycle s (FetchResult.ok (some (RawData.num q))) now).delta
        = some (e₁.level - e₂.level)) ∧
    ((runCycle s (FetchResult.ok (some (RawData.num q))) now).session.df
      = appendLog s.df { time := now, level := container_level q }) := by
  have hdf : (runCycle s (FetchResult.ok (some (RawData.num q))) now).session.df
      = appendLog s.df { time := now, level := container_level q } := by
    simp [runCycle, parseFloat, appendEntry]
  refine ⟨?_, ?_, hdf⟩
  · intro hlen
    rw [hdf] at hlen
    simp only [runCycle, parseFloat, appendEntry]
    rw [if_neg (by omega)]
  · intro e₁ e₂ h₁ h₂
    rw [hdf] at h₁ h₂
    rw [getLast?_appendLog] at h₁
    have he₁ : ({ time := now, level := container_level q } : HistoryEntry) = e₁ := by
      injection h₁
    have hlen := penult_some_length h₂
    simp only [runCycle, parseFloat, appendEntry]
    rw [if_pos (by omega), h₂, ← he₁]
    simp

/-- Witness for C3 on a one-entry log plus a reading of 80. -/
theorem delta_displayed_witness :
    (runCycle
        { logged_in := true, df := [{ time := 0, level := 10 }],
          last_update := none, auto_refresh := true }
        (FetchResult.ok (some (RawData.num 80))) 1).delta
    = some (({ time := 1, level := container_level 80 } : HistoryEntry).level
        - ({ time := 0, level := 10 } : HistoryEntry).level) :=
  (delta_displayed _ 80 1).2.1 _ _
    (by simp [runCycle, parseFloat, appendEntry, appendLog, tail100])
    (by simp [runCycle, parseFloat, appendEntry, appendLog, tail100, penult])

/-- Claim C5: from a logged-out session a login attempt logs in exactly
when both supplied credentials match the fixed strings; any mismatch
leaves the session unchanged and surfaces an error, and logout always
returns any session to the logged-out state. -/
theorem login_state_machine (s : Session) (u p : String)
    (h : s.logged_in = false) :
    ((loginAttempt s u p).1.logged_in = true ↔
      u = VALID_USERNAME ∧ p = VALID_PASSWORD) ∧
    (¬(u = VALID_USERNAME ∧ p = VALID_PASSWORD) →
      (loginAttempt s u p).1 = s ∧ (loginAttempt s u p).2.isSome = true) ∧
    (∀ t : Session, (logout t).logged_in = false) := by
  refine ⟨?_, ?_, fun t => rfl⟩
  · by_cases hc : u = VALID_USERNAME ∧ p = VALID_PASSWORD
    · simp [loginAttempt, hc]
    · simp [loginAttempt, hc, h]
  · intro hc
    simp [loginAttempt, hc]

/-- Witness for C5: the exact credentials log in the initial session. -/
theorem login_state_machine_witness :
    (loginAttempt initSession "admin" "admin123").1.logged_in = true :=
  ((login_state_machine initSession "admin" "admin123" rfl).1).mpr ⟨rfl, rfl⟩

/-- Claim C10: appending to a log within capacity keeps every surviving
entry unchanged and in order: the new log is a suffix of the old log (with
exactly the oldest entry dropped when the log was at capacity 100, and
nothing dropped below capacity) followed by the new entry, and no session
field other than the history log changes. -/
theorem appendEntry_frame (s : Session) (e : HistoryEntry)
    (h : s.df.length ≤ 100) :
    (appendEntry s e).df = s.df.drop (s.df.length + 1 - 100) ++ [e] ∧
    (s.df.length < 100 → (appendEntry s e).df = s.df ++ [e]) ∧
    (s.df.length = 100 → (appendEntry s e).df = s.df.drop 1 ++ [e]) ∧
    (appendEntry s e).df.dropLast <:+ s.df ∧
    (appendEntry s e).logged_in = s.logged_in ∧
    (appendEntry s e).last_update = s.last_update ∧
    (appendEntry s e).auto_refresh = s.auto_refresh := by
  have hd : (appendEntry s e).df = s.df.drop (s.df.length + 1 - 100) ++ [e] := by
    show appendLog s.df e = _
    unfold appendLog tail100
    simp only [List.length_append, List.length_singleton]
    exact List.drop_append_of_le_length (by omega)
  refine ⟨hd, ?_, ?_, ?_, rfl, rfl, rfl⟩
  · intro hlt
    rw [hd, Nat.sub_eq_zero_of_le (by omega), List.drop_zero]
  · intro heq
    rw [hd, heq]
  · rw [hd, List.dropLast_concat]
    exact List.drop_suffix _ _

/-- Witness for C10 on a one-entry log, far below capacity. -/
theorem appendEntry_frame_witness :
    (appendEntry
        { logged_in := true, df := [{ time := 0, level := 10 }],
          last_update := some 0, auto_refresh := false }
        { time := 1, level := 20 }).df
    = [{ time := 0, level := 10 }] ++ [{ time := 1, level := 20 }] :=
  (appendEntry_frame _ { time := 1, level := 20 } (by decide)).2.1 (by decide)

end Dashboard
